import Mathlib

/-
Verification of the CVBot conversation engine and document composer
(src/bot.py) against its natural-language specification.

The embedding models Python strings as Lean String values (lists of
characters), the per-user conversation row of the conversations table as a
Conv record, and one call of process_text_message as a pure transition
function returning the stored row together with the observable effects
(outbound message tags, PDF builds, created payment rows).  Network and
database transport are abstracted into explicit parameters (Env, MpEvent),
exactly at the call boundaries of the source.
-/

namespace CVBot

/-! ## Python string primitives -/

/-- Whitespace recognized by str.strip for the inputs that occur here. -/
def isSpaceChar (c : Char) : Bool :=
  c == ' ' || c == '\t' || c == '\n' || c == '\r'

/-- Strip whitespace from both ends of a character list (str.strip). -/
def trimChars (l : List Char) : List Char :=
  ((l.dropWhile isSpaceChar).reverse.dropWhile isSpaceChar).reverse

/-- Embedding of the helper clean: (s or "").strip(). -/
def pyStrip (s : String) : String := String.mk (trimChars s.data)

/-- Embedding of str.lower (character-wise). -/
def pyLower (s : String) : String := String.mk (s.data.map Char.toLower)

/-- Python str.split(sep) for a one-character separator, keeping empty
segments, generalized to a character predicate. -/
def splitOnPred (p : Char → Bool) : List Char → List (List Char)
  | [] => [[]]
  | x :: xs =>
    let r := splitOnPred p xs
    if p x then [] :: r
    else
      match r with
      | [] => [[x]]
      | h :: t => (x :: h) :: t

/-- Python sep.join(parts). -/
def joinSep (sep : String) : List String → String
  | [] => ""
  | [x] => x
  | x :: xs => x ++ sep ++ joinSep sep xs

/-! ## Helpers from bot.py -/

/-- The replacement performed by parse_bullets: newline becomes semicolon. -/
def nlToSemi (c : Char) : Char := if c = '\n' then ';' else c

/-- The reverse replacement considered by claim C7: semicolon becomes
newline. -/
def semiToNl (c : Char) : Char := if c = ';' then '\n' else c

/-- Embedding of parse_bullets: replace newlines by semicolons, split on
semicolons, strip each piece, keep the non-empty ones. -/
def parse_bullets (t : String) : List String :=
  ((splitOnPred (fun c => c == ';') (t.data.map nlToSemi)).map
      (fun l => String.mk (trimChars l))).filter (fun b => b != "")

/-- Embedding of as_list_from_commas: split on commas, strip, drop empties. -/
def as_list_from_commas (t : String) : List String :=
  ((splitOnPred (fun c => c == ',') t.data).map
      (fun l => String.mk (trimChars l))).filter (fun i => i != "")

/-- The fixed affirmative vocabulary of the source. -/
def yes_words : List String :=
  ["si", "sí", "s", "yes", "y", "ok", "dale", "de una", "okey"]

/-- The fixed skip vocabulary of the source. -/
def skip_words : List String :=
  ["saltear", "skip", "n/a", "-", "x", "ninguno", "ninguna", "no", "na"]

/-- Embedding of the yes classifier from the source. -/
def is_yes (t : String) : Bool := decide (pyLower (pyStrip t) ∈ yes_words)

/-- Embedding of the skip classifier from the source. -/
def is_skip (t : String) : Bool := decide (pyLower (pyStrip t) ∈ skip_words)

/-- Character-wise form of html.escape with quote=False, as used by
html_msg: ampersand, less-than and greater-than are replaced by their
entities. -/
def escapeChar (c : Char) : List Char :=
  if c = '&' then "&amp;".data
  else if c = '<' then "&lt;".data
  else if c = '>' then "&gt;".data
  else [c]

/-- Embedding of html_msg. -/
def html_msg (s : String) : String := String.mk (s.data.flatMap escapeChar)

/-- Embedding of rewrite_bullets_pro: strip, drop empties, capitalize the
first character, ensure a trailing period. -/
def rewrite_bullets_pro (bs : List String) : List String :=
  ((bs.map pyStrip).filter (fun t => t != "")).map (fun t =>
    let t2 :=
      match t.data with
      | [] => t
      | [c] => String.mk [c.toUpper]
      | c :: cs => String.mk (c.toUpper :: cs)
    if t2.data.getLast? = some '.' then t2 else t2 ++ ".")

/-- Round-robin distribution of bullets_columns at ncols = 2: element i
goes to component i mod 2. -/
def split2 : List String → List String × List String
  | [] => ([], [])
  | [a] => ([a], [])
  | a :: b :: rest =>
    let p := split2 rest
    (a :: p.1, b :: p.2)

/-- The row construction of bullets_columns at ncols = 2: rows are padded
with empty strings up to the longer column. -/
def padZip : List String → List String → List (List String)
  | [], [] => []
  | [], y :: ys => ["", y] :: padZip [] ys
  | x :: xs, [] => [x, ""] :: padZip xs []
  | x :: xs, y :: ys => [x, y] :: padZip xs ys

/-- Embedding of bullets_columns at its only call site (ncols = 2): strip
items, drop empties, distribute round-robin into two columns, emit rows. -/
def bullets_columns2 (items : List String) : List (List String) :=
  let items2 := (items.map pyStrip).filter (fun i => i != "")
  padZip (split2 items2).1 (split2 items2).2

/-! ## Tier limits -/

def FREE_MAX_EXPS : Nat := 1
def FREE_MAX_EDU : Nat := 1
def FREE_MAX_SKILLS : Nat := 10
def FREE_MAX_LANGS : Nat := 4

def PRO_MAX_EXPS : Nat := 3
def PRO_MAX_EDU : Nat := 2
def PRO_MAX_SKILLS : Nat := 20
def PRO_MAX_LANGS : Nat := 6
def PRO_MAX_CERTS : Nat := 4

def PRO_PRICE_ARS : Nat := 1500

def maxExps (p : String) : Nat := if p = "pro" then PRO_MAX_EXPS else FREE_MAX_EXPS
def maxEdu (p : String) : Nat := if p = "pro" then PRO_MAX_EDU else FREE_MAX_EDU
def maxSkills (p : String) : Nat := if p = "pro" then PRO_MAX_SKILLS else FREE_MAX_SKILLS
def maxLangs (p : String) : Nat := if p = "pro" then PRO_MAX_LANGS else FREE_MAX_LANGS

/-! ## Data model -/

/-- One experience entry (the cur_exp scratch dict and the elements of
data experiences). -/
structure ExpEntry where
  role : String := ""
  company : String := ""
  dates : String := ""
  bullets : List String := []
deriving Repr, DecidableEq, Inhabited

/-- One education entry (the cur_edu scratch dict and the elements of
data education). -/
structure EduEntry where
  degree : String := ""
  place : String := ""
  dates : String := ""
deriving Repr, DecidableEq, Inhabited

/-- The data_json record of a conversation row (default_data lists every
key; absent keys never occur because default_data seeds them all). -/
structure Data where
  name : String := ""
  dni : String := ""
  birth_year : String := ""
  birth_place : String := ""
  marital_status : String := ""
  address : String := ""
  city : String := ""
  contact : String := ""
  linkedin : String := ""
  title : String := ""
  profile_a : String := ""
  strengths : String := ""
  profile_b : String := ""
  photo_b64 : String := ""
  experiences : List ExpEntry := []
  education : List EduEntry := []
  certs : List String := []
  skills : List String := []
  languages : List String := []
  cur_exp : ExpEntry := {}
  cur_edu : EduEntry := {}
  profile : String := ""
deriving Repr, DecidableEq, Inhabited

/-- Embedding of default_data. -/
def default_data : Data := {}

/-- A stored conversation row: plan, step and the decoded data_json. -/
structure Conv where
  plan : String
  step : String
  data : Data
deriving Repr, DecidableEq, Inhabited

/-- The row written on first contact and on every reset. -/
def default_conv : Conv := ⟨"none", "choose_plan", default_data⟩

/-- The cv dict handed to build_pdf_bytes. -/
structure CV where
  name : String := ""
  dni : String := ""
  birth_year : String := ""
  birth_place : String := ""
  marital_status : String := ""
  address : String := ""
  city : String := ""
  contact : String := ""
  linkedin : String := ""
  title : String := ""
  profile : String := ""
  photo_b64 : String := ""
  experiences : List ExpEntry := []
  education : List EduEntry := []
  certs : List String := []
  skills : List String := []
  languages : List String := []
deriving Repr, DecidableEq, Inhabited

/-- Embedding of profile_free. -/
def profile_free (d : Data) : String :=
  let title := if pyStrip d.title ≠ "" then pyStrip d.title else "Perfil laboral"
  let a := pyStrip d.profile_a
  if a ≠ "" then title ++ ". Experiencia en " ++ a ++ "." else title ++ "."

/-- Embedding of profile_pro. -/
def profile_pro (d : Data) : String :=
  let title := if pyStrip d.title ≠ "" then pyStrip d.title else "Perfil laboral"
  let a := pyStrip d.profile_a
  let b := pyStrip d.profile_b
  let strengths := pyStrip d.strengths
  let base := title ++ ". "
  let base := if a ≠ "" then base ++ ("Experiencia en " ++ a ++ ". ") else base
  let base := if strengths ≠ "" then base ++ ("Fortalezas: " ++ strengths ++ ". ") else base
  let base := if b ≠ "" then base ++ ("Busco " ++ b ++ ". ") else base
  pyStrip (base ++ "Enfoque en prolijidad, responsabilidad y resultados.")

/-- The cv dict built on the free delivery path (keys absent from the
dict default to empty via cv.get in build_pdf_bytes). -/
def mk_free_cv (d : Data) : CV :=
  { name := d.name, dni := d.dni, birth_year := d.birth_year,
    birth_place := d.birth_place, marital_status := d.marital_status,
    address := d.address, city := d.city, contact := d.contact,
    title := d.title,
    profile := if d.profile ≠ "" then d.profile else profile_free d,
    experiences := d.experiences.take FREE_MAX_EXPS,
    education := d.education.take FREE_MAX_EDU,
    skills := d.skills.take FREE_MAX_SKILLS,
    languages := d.languages.take FREE_MAX_LANGS }

/-- The cv dict built on the pro delivery paths (test shortcut and
payment webhook). -/
def mk_pro_cv (d : Data) : CV :=
  { name := d.name, dni := d.dni, birth_year := d.birth_year,
    birth_place := d.birth_place, marital_status := d.marital_status,
    address := d.address, city := d.city, contact := d.contact,
    linkedin := d.linkedin, title := d.title,
    profile := if d.profile ≠ "" then d.profile else profile_pro d,
    photo_b64 := d.photo_b64,
    experiences := d.experiences.take PRO_MAX_EXPS,
    education := d.education.take PRO_MAX_EDU,
    certs := d.certs.take PRO_MAX_CERTS,
    skills := d.skills.take PRO_MAX_SKILLS,
    languages := d.languages.take PRO_MAX_LANGS }

/-! ## Outbound messages

Each constructor stands for the literal text sent at one send_text call
site of process_text_message; the texts carry no data consulted later, so
the embedding keeps only the tag (plus the payment link payload). -/

inductive Msg where
  | welcome
  | freeStart | proStart | choosePrompt
  | askDni | askBirthYear | askBirthPlace | askMarital | askAddress
  | askCity | askContact
  | askLinkedin | askTitleFree | askPhoto | skipPhotoTitle | photoWaitAgain
  | askProfileAPro | askProfileAFree | askStrengths | askProfileB
  | askExpRoleFree | askExpRolePro | askExpCompany | askExpDates
  | askExpBulletsPro | askExpBulletsFree
  | bulletsAgain | askExpMore | nextExpRole
  | askEduDegreeA | askEduDegreeB | askEduPlace | askEduDates
  | askEduMore | nextEduDegree
  | askCertsA | askCertsB | askCertMore | nextCert
  | askSkillsA | askSkillsB
  | askLangs
  | freeUpsell
  | payCreateFailed | payBadPref | payLink (testMode : Bool)
  | waitingNotice | testApproved | anotherCV | writeCV
deriving Repr, DecidableEq

/-- Environment of one process_text_message call: the test-payments flag
and the outcome of mp_create_preference (none models the raised
exception; the pair is the preference id and the resolved init_point). -/
structure Env where
  enableTestPayments : Bool
  mpPref : Option (String × String)
deriving Repr, DecidableEq

/-- Observable outcome of one process_text_message call: the stored
conversation row afterwards (unchanged when no upsert happens), the
outbound texts in order, the PDFs built and sent (cv data plus the pro
flag), and the payment rows created (preference id, amount). -/
structure TurnOut where
  conv : Conv
  msgs : List Msg
  pdfs : List (CV × Bool)
  payments : List (String × Nat)
deriving Repr, DecidableEq

/-! ## The conversation engine -/

/-- Shallow embedding of process_text_message (src/bot.py lines 698-1292).
Each branch mirrors the source branch for the same step string in source
order; branches that do not call upsert_conv return the input row
unchanged. -/
def process_text_message (env : Env) (store : Option Conv) (input : String) :
    TurnOut :=
  let text := pyStrip input
  match store with
  | none => ⟨default_conv, [Msg.welcome], [], []⟩
  | some conv =>
    let plan := conv.plan
    let step := conv.step
    let data := conv.data
    if step = "choose_plan" then
      let t := pyLower text
      if t = "gratis" ∨ t = "free" then
        ⟨⟨"free", "name", data⟩, [Msg.freeStart], [], []⟩
      else if t = "pro" ∨ t = "premium" then
        ⟨⟨"pro", "name", data⟩, [Msg.proStart], [], []⟩
      else ⟨conv, [Msg.choosePrompt], [], []⟩
    else if step = "name" then
      ⟨⟨plan, "dni", {data with name := text}⟩, [Msg.askDni], [], []⟩
    else if step = "dni" then
      ⟨⟨plan, "birth_year", {data with dni := if is_skip text then "" else text}⟩,
        [Msg.askBirthYear], [], []⟩
    else if step = "birth_year" then
      ⟨⟨plan, "birth_place", {data with birth_year := if is_skip text then "" else text}⟩,
        [Msg.askBirthPlace], [], []⟩
    else if step = "birth_place" then
      ⟨⟨plan, "marital_status", {data with birth_place := if is_skip text then "" else text}⟩,
        [Msg.askMarital], [], []⟩
    else if step = "marital_status" then
      ⟨⟨plan, "address", {data with marital_status := if is_skip text then "" else text}⟩,
        [Msg.askAddress], [], []⟩
    else if step = "address" then
      ⟨⟨plan, "city", {data with address := if is_skip text then "" else text}⟩,
        [Msg.askCity], [], []⟩
    else if step = "city" then
      ⟨⟨plan, "contact", {data with city := text}⟩, [Msg.askContact], [], []⟩
    else if step = "contact" then
      ⟨⟨plan, if plan = "pro" then "linkedin" else "title", {data with contact := text}⟩,
        [if plan = "pro" then Msg.askLinkedin else Msg.askTitleFree], [], []⟩
    else if step = "linkedin" ∧ plan = "pro" then
      ⟨⟨plan, "photo_wait", {data with linkedin := if is_skip text then "" else text}⟩,
        [Msg.askPhoto], [], []⟩
    else if step = "photo_wait" ∧ plan = "pro" then
      if is_skip text then
        ⟨⟨plan, "title", {data with photo_b64 := ""}⟩, [Msg.skipPhotoTitle], [], []⟩
      else ⟨conv, [Msg.photoWaitAgain], [], []⟩
    else if step = "title" then
      ⟨⟨plan, "profile_a", {data with title := text}⟩,
        [if plan = "pro" then Msg.askProfileAPro else Msg.askProfileAFree], [], []⟩
    else if step = "profile_a" then
      let d1 := {data with profile_a := text}
      if plan = "pro" then
        ⟨⟨plan, "strengths", d1⟩, [Msg.askStrengths], [], []⟩
      else
        ⟨⟨plan, "exp_role", {d1 with profile := profile_free d1, cur_exp := {}}⟩,
          [Msg.askExpRoleFree], [], []⟩
    else if step = "strengths" ∧ plan = "pro" then
      let d1 := {data with strengths := text}
      ⟨⟨plan, "profile_b", {d1 with profile := profile_pro d1}⟩, [Msg.askProfileB], [], []⟩
    else if step = "profile_b" ∧ plan = "pro" then
      let d1 := {data with profile_b := text}
      ⟨⟨plan, "exp_role", {d1 with profile := profile_pro d1, cur_exp := {}}⟩,
        [Msg.askExpRolePro], [], []⟩
    else if step = "exp_role" then
      ⟨⟨plan, "exp_company", {data with cur_exp := {role := text}}⟩,
        [Msg.askExpCompany], [], []⟩
    else if step = "exp_company" then
      ⟨⟨plan, "exp_dates", {data with cur_exp := {data.cur_exp with company := text}}⟩,
        [Msg.askExpDates], [], []⟩
    else if step = "exp_dates" then
      ⟨⟨plan, "exp_bullets",
          {data with cur_exp := {data.cur_exp with dates := if is_skip text then "" else text}}⟩,
        [if plan = "pro" then Msg.askExpBulletsPro else Msg.askExpBulletsFree], [], []⟩
    else if step = "exp_bullets" then
      let bs := parse_bullets text
      if bs = [] then ⟨conv, [Msg.bulletsAgain], [], []⟩
      else
        let bl := if plan = "pro" then (rewrite_bullets_pro bs).take 6 else bs.take 4
        let exps := data.experiences ++ [{data.cur_exp with bullets := bl}]
        let d1 := {data with experiences := exps, cur_exp := {}}
        if exps.length < maxExps plan ∧ plan = "pro" then
          ⟨⟨plan, "exp_more", d1⟩, [Msg.askExpMore], [], []⟩
        else
          ⟨⟨plan, "edu_degree", d1⟩, [Msg.askEduDegreeA], [], []⟩
    else if step = "exp_more" then
      if is_yes text then ⟨⟨plan, "exp_role", data⟩, [Msg.nextExpRole], [], []⟩
      else ⟨⟨plan, "edu_degree", data⟩, [Msg.askEduDegreeB], [], []⟩
    else if step = "edu_degree" then
      if is_skip text then
        if plan = "pro" then ⟨⟨plan, "certs", data⟩, [Msg.askCertsA], [], []⟩
        else ⟨⟨plan, "skills", data⟩, [Msg.askSkillsA], [], []⟩
      else
        ⟨⟨plan, "edu_place", {data with cur_edu := {degree := text}}⟩,
          [Msg.askEduPlace], [], []⟩
    else if step = "edu_place" then
      ⟨⟨plan, "edu_dates",
          {data with cur_edu := {data.cur_edu with place := if is_skip text then "" else text}}⟩,
        [Msg.askEduDates], [], []⟩
    else if step = "edu_dates" then
      let d1 := {data with
        education := data.education ++
          [{data.cur_edu with dates := if is_skip text then "" else text}],
        cur_edu := {}}
      if d1.education.length < maxEdu plan ∧ plan = "pro" then
        ⟨⟨plan, "edu_more", d1⟩, [Msg.askEduMore], [], []⟩
      else if plan = "pro" then
        ⟨⟨plan, "certs", d1⟩, [Msg.askCertsA], [], []⟩
      else
        ⟨⟨plan, "skills", d1⟩, [Msg.askSkillsA], [], []⟩
    else if step = "edu_more" then
      if is_yes text then ⟨⟨plan, "edu_degree", data⟩, [Msg.nextEduDegree], [], []⟩
      else ⟨⟨plan, "certs", data⟩, [Msg.askCertsB], [], []⟩
    else if step = "certs" ∧ plan = "pro" then
      if is_skip text then ⟨⟨plan, "skills", data⟩, [Msg.askSkillsB], [], []⟩
      else
        let cs := (data.certs ++ [text]).take PRO_MAX_CERTS
        let d1 := {data with certs := cs}
        if cs.length < PRO_MAX_CERTS then
          ⟨⟨plan, "certs_more", d1⟩, [Msg.askCertMore], [], []⟩
        else ⟨⟨plan, "skills", d1⟩, [Msg.askSkillsB], [], []⟩
    else if step = "certs_more" ∧ plan = "pro" then
      if is_yes text ∧ data.certs.length < PRO_MAX_CERTS then
        ⟨⟨plan, "certs", data⟩, [Msg.nextCert], [], []⟩
      else ⟨⟨plan, "skills", data⟩, [Msg.askSkillsB], [], []⟩
    else if step = "skills" then
      let sk := if is_skip text then []
        else (as_list_from_commas text).take
          (if plan = "pro" then PRO_MAX_SKILLS else FREE_MAX_SKILLS)
      ⟨⟨plan, "languages", {data with skills := sk}⟩, [Msg.askLangs], [], []⟩
    else if step = "languages" then
      let lg := if is_skip text then []
        else (as_list_from_commas text).take
          (if plan = "pro" then PRO_MAX_LANGS else FREE_MAX_LANGS)
      let d1 := {data with languages := lg}
      if plan = "free" then
        ⟨default_conv, [Msg.freeUpsell], [(mk_free_cv d1, false)], []⟩
      else
        match env.mpPref with
        | none => ⟨default_conv, [Msg.payCreateFailed], [], []⟩
        | some (pid, ipt) =>
          if pid = "" ∨ ipt = "" then ⟨default_conv, [Msg.payBadPref], [], []⟩
          else
            ⟨⟨plan, "waiting_payment", d1⟩, [Msg.payLink env.enableTestPayments],
              [], [(pid, PRO_PRICE_ARS)]⟩
    else if step = "waiting_payment" then
      if env.enableTestPayments = true ∧
          (pyLower (pyStrip text) = "test" ∨ pyLower (pyStrip text) = "aprobar" ∨
            pyLower (pyStrip text) = "approve") then
        ⟨default_conv, [Msg.testApproved, Msg.anotherCV], [(mk_pro_cv data, true)], []⟩
      else ⟨conv, [Msg.waitingNotice], [], []⟩
    else ⟨conv, [Msg.writeCV], [], []⟩

/-- Iterated handling of a sequence of inbound texts, starting from a
stored row (or none). -/
def runTexts (env : Env) (store : Option Conv) : List String → Option Conv
  | [] => store
  | t :: ts => runTexts env (some (process_text_message env store t).conv) ts

/-! ## The payment webhook -/

/-- Inputs of one mp_webhook call, at the call boundaries of the source:
the payment id extracted from the notification payload (none when absent),
the result of mp_get_payment (status and external_reference; none models
the raised exception), the latest payment row of the referenced user
(its preference id), and the stored conversation of that user. -/
structure MpEvent where
  paymentId : Option String
  payResult : Option (String × String)
  latest : Option String
  conv : Option Conv
deriving Repr, DecidableEq

/-- Observable outcome of one mp_webhook call: PDFs built (cv and pro
flag), the payment-status update written (preference id, status), and the
stored conversation afterwards. -/
structure MpOut where
  pdfs : List (CV × Bool)
  statusUpdate : Option (String × String)
  convAfter : Option Conv
deriving Repr, DecidableEq

/-- Shallow embedding of mp_webhook (src/bot.py lines 1612-1696). -/
def mp_webhook (e : MpEvent) : MpOut :=
  match e.paymentId with
  | none => ⟨[], none, e.conv⟩
  | some _ =>
    match e.payResult with
    | none => ⟨[], none, e.conv⟩
    | some (status, extref) =>
      if pyStrip extref = "" then ⟨[], none, e.conv⟩
      else
        match e.latest with
        | none => ⟨[], none, e.conv⟩
        | some prefId =>
          let upd := some (prefId, if status = "" then "unknown" else status)
          if status ≠ "approved" then ⟨[], upd, e.conv⟩
          else
            match e.conv with
            | none => ⟨[], upd, none⟩
            | some c => ⟨[(mk_pro_cv c.data, true)], upd, some default_conv⟩

/-! ## The document composer (markup strings) -/

/-- The markup strings of the Paragraph flowables of build_pdf_bytes, in
story order.  Only the strings are modeled: styles, spacers, the divider
table and the photo flowable carry no user text. -/
def story_texts (cv : CV) (pro : Bool) : List String :=
  let nm := if pyStrip cv.name ≠ "" then pyStrip cv.name else "Nombre Apellido"
  let title := pyStrip cv.title
  let profile := pyStrip cv.profile
  let contact_parts :=
    (if pyStrip cv.city ≠ "" then [pyStrip cv.city] else []) ++
    (if pyStrip cv.contact ≠ "" then [pyStrip cv.contact] else []) ++
    (if pro ∧ pyStrip cv.linkedin ≠ "" then [pyStrip cv.linkedin] else [])
  let contact_line := joinSep "  •  " contact_parts
  let header :=
    [html_msg nm] ++ (if title ≠ "" then [html_msg title] else []) ++
    (if contact_line ≠ "" then [html_msg contact_line] else [])
  let dp :=
    (if pyStrip cv.dni ≠ "" then ["DNI: " ++ pyStrip cv.dni] else []) ++
    (if pyStrip cv.birth_year ≠ "" then ["Año de nacimiento: " ++ pyStrip cv.birth_year] else []) ++
    (if pyStrip cv.birth_place ≠ "" then ["Lugar de nacimiento: " ++ pyStrip cv.birth_place] else []) ++
    (if pyStrip cv.marital_status ≠ "" then ["Estado civil: " ++ pyStrip cv.marital_status] else []) ++
    (if pyStrip cv.address ≠ "" then ["Dirección: " ++ pyStrip cv.address] else [])
  let dpSec := if dp ≠ [] then ["DATOS PERSONALES", html_msg (joinSep " • " dp)] else []
  let profSec := if profile ≠ "" then ["PERFIL", html_msg profile] else []
  let expSec :=
    if cv.experiences ≠ [] then
      "EXPERIENCIA" :: cv.experiences.flatMap (fun e =>
        let role := pyStrip e.role
        let company := pyStrip e.company
        let dates := pyStrip e.dates
        let head_parts := (if role ≠ "" then [role] else []) ++
          (if company ≠ "" then [company] else [])
        let head := if head_parts ≠ [] then joinSep " — " head_parts else "Experiencia"
        [html_msg head] ++ (if dates ≠ "" then [html_msg dates] else []) ++
          ((e.bullets.filter (fun b => pyStrip b != "")).map
            (fun b => "• " ++ html_msg (pyStrip b))))
    else []
  let eduSec :=
    if cv.education ≠ [] then
      "EDUCACIÓN" :: cv.education.flatMap (fun e =>
        let line := joinSep " — "
          ((if pyStrip e.degree ≠ "" then [pyStrip e.degree] else []) ++
           (if pyStrip e.place ≠ "" then [pyStrip e.place] else []))
        (if line ≠ "" then [html_msg line] else []) ++
          (if pyStrip e.dates ≠ "" then [html_msg (pyStrip e.dates)] else []))
    else []
  let certs := (if pro then cv.certs else []).filter (fun c => pyStrip c != "")
  let certSec :=
    if pro ∧ certs ≠ [] then
      "CURSOS / CERTIFICACIONES" :: (certs.take 8).map (fun c => "• " ++ html_msg (pyStrip c))
    else []
  let skills := cv.skills.filter (fun s => pyStrip s != "")
  let skillSec :=
    if skills ≠ [] then
      "HABILIDADES" :: (bullets_columns2 skills).flatMap (fun row =>
        row.map (fun a => if a ≠ "" then "• " ++ html_msg a else ""))
    else []
  let langs := cv.languages.filter (fun l => pyStrip l != "")
  let langSec := if langs ≠ [] then ["IDIOMAS", html_msg (joinSep ", " langs)] else []
  header ++ dpSec ++ profSec ++ expSec ++ eduSec ++ certSec ++ skillSec ++ langSec

/-! ## The cap invariant (claim C1) -/

/-- The cap bounds on every list section of a stored record, for the
current plan. -/
def baseInv (p : String) (d : Data) : Prop :=
  d.experiences.length ≤ maxExps p ∧ d.education.length ≤ maxEdu p ∧
  d.certs.length ≤ PRO_MAX_CERTS ∧ d.skills.length ≤ maxSkills p ∧
  d.languages.length ≤ maxLangs p

/-- Step-dependent strengthening making the cap bounds inductive: list
sections are still empty before their sub-flow, strictly below cap while
inside it, and the add-another steps are only reachable on the pro plan
below cap. -/
def extraInv (p s : String) (d : Data) : Prop :=
  match s with
  | "choose_plan" => d = default_data
  | "name" | "dni" | "birth_year" | "birth_place" | "marital_status" | "address"
  | "city" | "contact" | "linkedin" | "photo_wait" | "title" | "profile_a"
  | "strengths" | "profile_b" => d.experiences = [] ∧ d.education = []
  | "exp_role" | "exp_company" | "exp_dates" | "exp_bullets" =>
      d.experiences.length < maxExps p ∧ d.education = []
  | "exp_more" => d.experiences.length < maxExps p ∧ d.education = [] ∧ p = "pro"
  | "edu_degree" | "edu_place" | "edu_dates" => d.education.length < maxEdu p
  | "edu_more" => d.education.length < maxEdu p ∧ p = "pro"
  | _ => True

/-- The inductive invariant of a stored conversation row. -/
def Inv (c : Conv) : Prop := baseInv c.plan c.data ∧ extraInv c.plan c.step c.data

instance (p : String) (d : Data) : Decidable (baseInv p d) := by
  unfold baseInv; infer_instance

instance (p s : String) (d : Data) : Decidable (extraInv p s d) := by
  unfold extraInv; split <;> infer_instance

instance (c : Conv) : Decidable (Inv c) := by
  unfold Inv; infer_instance

/-- The cap bounds exactly as the claim states them. -/
def capsOK (c : Conv) : Prop :=
  c.data.experiences.length ≤ (if c.plan = "pro" then 3 else 1) ∧
  c.data.education.length ≤ (if c.plan = "pro" then 2 else 1) ∧
  c.data.certs.length ≤ 4 ∧
  c.data.skills.length ≤ (if c.plan = "pro" then 20 else 10) ∧
  c.data.languages.length ≤ (if c.plan = "pro" then 6 else 4)

/-- A markup string is safe when no raw angle bracket occurs in it, so
none of it can be read as a formatting tag. -/
def Safe (s : String) : Prop := ∀ c ∈ s.data, c ≠ '<' ∧ c ≠ '>'

/-- Every string of a list is safe. -/
def safeAll (l : List String) : Prop := ∀ s ∈ l, Safe s

instance (s : String) : Decidable (Safe s) := by
  unfold Safe; infer_instance


theorem maxExps_pos (p : String) : 0 < maxExps p := by
  unfold maxExps PRO_MAX_EXPS FREE_MAX_EXPS; split <;> omega

theorem maxEdu_pos (p : String) : 0 < maxEdu p := by
  unfold maxEdu PRO_MAX_EDU FREE_MAX_EDU; split <;> omega

theorem inv_default : Inv default_conv := by decide

/-- The choose_plan branch of process_text_message, as an equation. -/
theorem ptm_choose_plan (env : Env) (p : String) (d : Data) (t : String) :
    process_text_message env (some ⟨p, "choose_plan", d⟩) t =
      if pyLower (pyStrip t) = "gratis" ∨ pyLower (pyStrip t) = "free" then
        ⟨⟨"free", "name", d⟩, [Msg.freeStart], [], []⟩
      else if pyLower (pyStrip t) = "pro" ∨ pyLower (pyStrip t) = "premium" then
        ⟨⟨"pro", "name", d⟩, [Msg.proStart], [], []⟩
      else ⟨⟨p, "choose_plan", d⟩, [Msg.choosePrompt], [], []⟩ := rfl

set_option maxHeartbeats 2000000 in
/-- One inbound text preserves the invariant. -/
theorem inv_step (env : Env) (c : Conv) (t : String) (h : Inv c) :
    Inv (process_text_message env (some c) t).conv := by
  obtain ⟨p, s, d⟩ := c
  obtain ⟨hb, he⟩ := h
  dsimp only at hb he
  by_cases h1 : s = "choose_plan"
  · subst h1
    have hd : d = default_data := he
    subst hd
    rw [ptm_choose_plan]
    split_ifs
    · decide
    · decide
    · exact ⟨hb, he⟩
  by_cases h2 : s = "name"
  · subst h2; exact ⟨hb, he⟩
  by_cases h3 : s = "dni"
  · subst h3; exact ⟨hb, he⟩
  by_cases h4 : s = "birth_year"
  · subst h4; exact ⟨hb, he⟩
  by_cases h5 : s = "birth_place"
  · subst h5; exact ⟨hb, he⟩
  by_cases h6 : s = "marital_status"
  · subst h6; exact ⟨hb, he⟩
  by_cases h7 : s = "address"
  · subst h7; exact ⟨hb, he⟩
  by_cases h8 : s = "city"
  · subst h8; exact ⟨hb, he⟩
  by_cases h9 : s = "contact"
  · subst h9
    by_cases hp : p = "pro"
    · subst hp; exact ⟨hb, he⟩
    · simp only [process_text_message, hp, String.reduceEq, reduceIte, and_false,
        false_and, and_true, true_and, if_false, if_true]
      exact ⟨hb, he⟩
  by_cases h10 : s = "linkedin"
  · subst h10
    by_cases hp : p = "pro"
    · subst hp; exact ⟨hb, he⟩
    · simp only [process_text_message, hp, String.reduceEq, reduceIte, and_false,
        false_and, and_true, true_and, if_false, if_true]
      exact ⟨hb, he⟩
  by_cases h11 : s = "photo_wait"
  · subst h11
    by_cases hp : p = "pro"
    · subst hp
      simp only [process_text_message, String.reduceEq, reduceIte, and_false,
        false_and, and_true, true_and, if_false, if_true]
      split_ifs
      · exact ⟨hb, he⟩
      · exact ⟨hb, he⟩
    · simp only [process_text_message, hp, String.reduceEq, reduceIte, and_false,
        false_and, and_true, true_and, if_false, if_true]
      exact ⟨hb, he⟩
  by_cases h12 : s = "title"
  · subst h12; exact ⟨hb, he⟩
  by_cases h13 : s = "profile_a"
  · subst h13
    by_cases hp : p = "pro"
    · subst hp; exact ⟨hb, he⟩
    · simp only [process_text_message, hp, String.reduceEq, reduceIte, and_false,
        false_and, and_true, true_and, if_false, if_true]
      refine ⟨hb, ?_, he.2⟩
      show d.experiences.length < maxExps p
      rw [he.1]
      exact maxExps_pos p
  by_cases h14 : s = "strengths"
  · subst h14
    by_cases hp : p = "pro"
    · subst hp; exact ⟨hb, he⟩
    · simp only [process_text_message, hp, String.reduceEq, reduceIte, and_false,
        false_and, and_true, true_and, if_false, if_true]
      exact ⟨hb, he⟩
  by_cases h15 : s = "profile_b"
  · subst h15
    by_cases hp : p = "pro"
    · subst hp
      refine ⟨hb, ?_, he.2⟩
      show d.experiences.length < maxExps "pro"
      rw [he.1]
      exact maxExps_pos _
    · simp only [process_text_message, hp, String.reduceEq, reduceIte, and_false,
        false_and, and_true, true_and, if_false, if_true]
      exact ⟨hb, he⟩
  by_cases h16 : s = "exp_role"
  · subst h16; exact ⟨hb, he⟩
  by_cases h17 : s = "exp_company"
  · subst h17; exact ⟨hb, he⟩
  by_cases h18 : s = "exp_dates"
  · subst h18; exact ⟨hb, he⟩
  by_cases h19 : s = "exp_bullets"
  · subst h19
    obtain ⟨hlt, hed⟩ := he
    obtain ⟨b1, b2, b3, b4, b5⟩ := hb
    by_cases hp : p = "pro"
    · subst hp
      simp only [process_text_message, String.reduceEq, reduceIte, and_false,
        false_and, and_true, true_and, if_false, if_true]
      split_ifs with hbs hc
      · exact ⟨⟨b1, b2, b3, b4, b5⟩, hlt, hed⟩
      · exact ⟨⟨hc.le, b2, b3, b4, b5⟩, hc, hed, rfl⟩
      · refine ⟨⟨?_, b2, b3, b4, b5⟩, ?_⟩
        · simp only [List.length_append, List.length_cons, List.length_nil]
          omega
        · show d.education.length < maxEdu "pro"
          rw [hed]
          exact maxEdu_pos _
    · simp only [process_text_message, hp, String.reduceEq, reduceIte, and_false,
        false_and, and_true, true_and, if_false, if_true]
      split_ifs with hbs
      · exact ⟨⟨b1, b2, b3, b4, b5⟩, hlt, hed⟩
      · refine ⟨⟨?_, b2, b3, b4, b5⟩, ?_⟩
        · simp only [List.length_append, List.length_cons, List.length_nil]
          omega
        · show d.education.length < maxEdu p
          rw [hed]
          exact maxEdu_pos _
  by_cases h20 : s = "exp_more"
  · subst h20
    obtain ⟨hlt, hed, hp⟩ := he
    simp only [process_text_message, String.reduceEq, reduceIte, and_false,
      false_and, and_true, true_and, if_false, if_true]
    split_ifs
    · exact ⟨hb, hlt, hed⟩
    · refine ⟨hb, ?_⟩
      show d.education.length < maxEdu p
      rw [hed]
      exact maxEdu_pos p
  by_cases h21 : s = "edu_degree"
  · subst h21
    simp only [process_text_message, String.reduceEq, reduceIte, and_false,
      false_and, and_true, true_and, if_false, if_true]
    split_ifs
    · exact ⟨hb, trivial⟩
    · exact ⟨hb, trivial⟩
    · exact ⟨hb, he⟩
  by_cases h22 : s = "edu_place"
  · subst h22; exact ⟨hb, he⟩
  by_cases h23 : s = "edu_dates"
  · subst h23
    obtain ⟨b1, b2, b3, b4, b5⟩ := hb
    have hlt : d.education.length < maxEdu p := he
    by_cases hp : p = "pro"
    · subst hp
      simp only [process_text_message, String.reduceEq, reduceIte, and_false,
        false_and, and_true, true_and, if_false, if_true]
      split_ifs with hsk hc hc2
      · exact ⟨⟨b1, hc.le, b3, b4, b5⟩, hc, rfl⟩
      · refine ⟨⟨b1, ?_, b3, b4, b5⟩, trivial⟩
        simp only [List.length_append, List.length_cons, List.length_nil]
        omega
      · exact ⟨⟨b1, hc2.le, b3, b4, b5⟩, hc2, rfl⟩
      · refine ⟨⟨b1, ?_, b3, b4, b5⟩, trivial⟩
        simp only [List.length_append, List.length_cons, List.length_nil]
        omega
    · simp only [process_text_message, hp, String.reduceEq, reduceIte, and_false,
        false_and, and_true, true_and, if_false, if_true]
      split_ifs with hsk
      · refine ⟨⟨b1, ?_, b3, b4, b5⟩, trivial⟩
        simp only [List.length_append, List.length_cons, List.length_nil]
        omega
      · refine ⟨⟨b1, ?_, b3, b4, b5⟩, trivial⟩
        simp only [List.length_append, List.length_cons, List.length_nil]
        omega
  by_cases h24 : s = "edu_more"
  · subst h24
    obtain ⟨hlt, hp⟩ := he
    simp only [process_text_message, String.reduceEq, reduceIte, and_false,
      false_and, and_true, true_and, if_false, if_true]
    split_ifs
    · exact ⟨hb, hlt⟩
    · exact ⟨hb, trivial⟩
  by_cases h25 : s = "certs"
  · subst h25
    by_cases hp : p = "pro"
    · subst hp
      obtain ⟨b1, b2, b3, b4, b5⟩ := hb
      simp only [process_text_message, String.reduceEq, reduceIte, and_false,
        false_and, and_true, true_and, if_false, if_true]
      split_ifs
      · exact ⟨⟨b1, b2, b3, b4, b5⟩, trivial⟩
      · refine ⟨⟨b1, b2, ?_, b4, b5⟩, trivial⟩
        rw [List.length_take]
        exact Nat.min_le_left _ _
      · refine ⟨⟨b1, b2, ?_, b4, b5⟩, trivial⟩
        rw [List.length_take]
        exact Nat.min_le_left _ _
    · simp only [process_text_message, hp, String.reduceEq, reduceIte, and_false,
        false_and, and_true, true_and, if_false, if_true]
      exact ⟨hb, he⟩
  by_cases h26 : s = "certs_more"
  · subst h26
    by_cases hp : p = "pro"
    · subst hp
      simp only [process_text_message, String.reduceEq, reduceIte, and_false,
        false_and, and_true, true_and, if_false, if_true]
      split_ifs
      · exact ⟨hb, trivial⟩
      · exact ⟨hb, trivial⟩
    · simp only [process_text_message, hp, String.reduceEq, reduceIte, and_false,
        false_and, and_true, true_and, if_false, if_true]
      exact ⟨hb, he⟩
  by_cases h27 : s = "skills"
  · subst h27
    obtain ⟨b1, b2, b3, b4, b5⟩ := hb
    by_cases hp : p = "pro"
    · subst hp
      simp only [process_text_message, String.reduceEq, reduceIte, and_false,
        false_and, and_true, true_and, if_false, if_true]
      split_ifs
      · exact ⟨⟨b1, b2, b3, Nat.zero_le _, b5⟩, trivial⟩
      · refine ⟨⟨b1, b2, b3, ?_, b5⟩, trivial⟩
        rw [List.length_take]
        exact Nat.min_le_left _ _
    · simp only [process_text_message, hp, String.reduceEq, reduceIte, and_false,
        false_and, and_true, true_and, if_false, if_true]
      split_ifs
      · exact ⟨⟨b1, b2, b3, Nat.zero_le _, b5⟩, trivial⟩
      · refine ⟨⟨b1, b2, b3, ?_, b5⟩, trivial⟩
        rw [List.length_take]
        unfold maxSkills
        rw [if_neg hp]
        exact Nat.min_le_left _ _
  by_cases h28 : s = "languages"
  · subst h28
    obtain ⟨b1, b2, b3, b4, b5⟩ := hb
    obtain ⟨et, mp⟩ := env
    by_cases hp : p = "pro"
    · subst hp
      rcases mp with _ | ⟨pid, ipt⟩
      · simp only [process_text_message, String.reduceEq, reduceIte, and_false,
          false_and, and_true, true_and, if_false, if_true]
        exact inv_default
      · simp only [process_text_message, String.reduceEq, reduceIte, and_false,
          false_and, and_true, true_and, if_false, if_true]
        split_ifs <;>
          first
            | exact inv_default
            | exact ⟨⟨b1, b2, b3, b4, Nat.zero_le _⟩, trivial⟩
            | exact ⟨⟨b1, b2, b3, b4, by
                rw [List.length_take]; exact Nat.min_le_left _ _⟩, trivial⟩
    · rcases mp with _ | ⟨pid, ipt⟩
      · simp only [process_text_message, hp, String.reduceEq, reduceIte, and_false,
          false_and, and_true, true_and, if_false, if_true]
        (try split_ifs) <;> exact inv_default
      · simp only [process_text_message, hp, String.reduceEq, reduceIte, and_false,
          false_and, and_true, true_and, if_false, if_true]
        split_ifs <;>
          first
            | exact inv_default
            | exact ⟨⟨b1, b2, b3, b4, Nat.zero_le _⟩, trivial⟩
            | exact ⟨⟨b1, b2, b3, b4, by
                rw [List.length_take]
                unfold maxLangs
                rw [if_neg hp]
                exact Nat.min_le_left _ _⟩, trivial⟩
  by_cases h29 : s = "waiting_payment"
  · subst h29
    simp only [process_text_message, String.reduceEq, reduceIte, and_false,
      false_and, and_true, true_and, if_false, if_true]
    split_ifs
    · exact inv_default
    · exact ⟨hb, he⟩
  · have hred : process_text_message env (some ⟨p, s, d⟩) t =
        ⟨⟨p, s, d⟩, [Msg.writeCV], [], []⟩ := by
      simp only [process_text_message]
      rw [if_neg h1, if_neg h2, if_neg h3, if_neg h4, if_neg h5, if_neg h6, if_neg h7,
        if_neg h8, if_neg h9,
        if_neg (show ¬(s = "linkedin" ∧ p = "pro") from fun hx => h10 hx.1),
        if_neg (show ¬(s = "photo_wait" ∧ p = "pro") from fun hx => h11 hx.1),
        if_neg h12, if_neg h13,
        if_neg (show ¬(s = "strengths" ∧ p = "pro") from fun hx => h14 hx.1),
        if_neg (show ¬(s = "profile_b" ∧ p = "pro") from fun hx => h15 hx.1),
        if_neg h16, if_neg h17, if_neg h18, if_neg h19, if_neg h20, if_neg h21,
        if_neg h22, if_neg h23, if_neg h24,
        if_neg (show ¬(s = "certs" ∧ p = "pro") from fun hx => h25 hx.1),
        if_neg (show ¬(s = "certs_more" ∧ p = "pro") from fun hx => h26 hx.1),
        if_neg h27, if_neg h28, if_neg h29]
    rw [hred]
    exact ⟨hb, he⟩

/-- Running any list of inbound texts preserves the invariant. -/
theorem inv_runTexts (env : Env) (ts : List String) :
    ∀ (store : Option Conv), (∀ c0, store = some c0 → Inv c0) →
    ∀ c', runTexts env store ts = some c' → Inv c' := by
  induction ts with
  | nil =>
    intro store h c' hc'
    exact h c' hc'
  | cons t ts ih =>
    intro store h c' hc'
    refine ih _ ?_ c' hc'
    intro c0 hc0
    injection hc0 with h0
    subst h0
    match store with
    | none => exact inv_default
    | some c1 => exact inv_step env c1 t (h c1 rfl)

/-- C1: after any sequence of inbound text messages handled by
process_text_message, starting from no stored session, the stored record
satisfies every tier cap: experiences at most 3 (pro) or 1 (free),
education at most 2 or 1, certificates at most 4, skills at most 20 or
10, languages at most 6 or 4. -/
theorem C1_list_caps (env : Env) (ts : List String) (c : Conv)
    (h : runTexts env none ts = some c) : capsOK c := by
  have hinv := inv_runTexts env ts none (by intro c0 hc0; cases hc0) c h
  obtain ⟨⟨b1, b2, b3, b4, b5⟩, -⟩ := hinv
  exact ⟨b1, b2, b3, b4, b5⟩

/-! ## Per-step equations of the engine -/

theorem ptm_name (env : Env) (p : String) (d : Data) (t : String) :
    process_text_message env (some ⟨p, "name", d⟩) t =
      ⟨⟨p, "dni", {d with name := pyStrip t}⟩, [Msg.askDni], [], []⟩ := rfl

theorem ptm_city (env : Env) (p : String) (d : Data) (t : String) :
    process_text_message env (some ⟨p, "city", d⟩) t =
      ⟨⟨p, "contact", {d with city := pyStrip t}⟩, [Msg.askContact], [], []⟩ := rfl

theorem ptm_contact (env : Env) (p : String) (d : Data) (t : String) :
    process_text_message env (some ⟨p, "contact", d⟩) t =
      ⟨⟨p, if p = "pro" then "linkedin" else "title", {d with contact := pyStrip t}⟩,
        [if p = "pro" then Msg.askLinkedin else Msg.askTitleFree], [], []⟩ := rfl

theorem ptm_title (env : Env) (p : String) (d : Data) (t : String) :
    process_text_message env (some ⟨p, "title", d⟩) t =
      ⟨⟨p, "profile_a", {d with title := pyStrip t}⟩,
        [if p = "pro" then Msg.askProfileAPro else Msg.askProfileAFree], [], []⟩ := rfl

theorem ptm_profile_a (env : Env) (p : String) (d : Data) (t : String) :
    process_text_message env (some ⟨p, "profile_a", d⟩) t =
      if p = "pro" then
        ⟨⟨p, "strengths", {d with profile_a := pyStrip t}⟩, [Msg.askStrengths], [], []⟩
      else
        ⟨⟨p, "exp_role",
            {({d with profile_a := pyStrip t}) with
              profile := profile_free {d with profile_a := pyStrip t}, cur_exp := {}}⟩,
          [Msg.askExpRoleFree], [], []⟩ := rfl

theorem ptm_photo_wait (env : Env) (d : Data) (t : String) :
    process_text_message env (some ⟨"pro", "photo_wait", d⟩) t =
      if is_skip (pyStrip t) then
        ⟨⟨"pro", "title", {d with photo_b64 := ""}⟩, [Msg.skipPhotoTitle], [], []⟩
      else ⟨⟨"pro", "photo_wait", d⟩, [Msg.photoWaitAgain], [], []⟩ := rfl

theorem ptm_exp_bullets (env : Env) (p : String) (d : Data) (t : String) :
    process_text_message env (some ⟨p, "exp_bullets", d⟩) t =
      (let bs := parse_bullets (pyStrip t)
       if bs = [] then ⟨⟨p, "exp_bullets", d⟩, [Msg.bulletsAgain], [], []⟩
       else
         let bl := if p = "pro" then (rewrite_bullets_pro bs).take 6 else bs.take 4
         let exps := d.experiences ++ [{d.cur_exp with bullets := bl}]
         let d1 := {d with experiences := exps, cur_exp := {}}
         if exps.length < maxExps p ∧ p = "pro" then
           ⟨⟨p, "exp_more", d1⟩, [Msg.askExpMore], [], []⟩
         else ⟨⟨p, "edu_degree", d1⟩, [Msg.askEduDegreeA], [], []⟩) := rfl

theorem ptm_exp_more (env : Env) (p : String) (d : Data) (t : String) :
    process_text_message env (some ⟨p, "exp_more", d⟩) t =
      if is_yes (pyStrip t) then ⟨⟨p, "exp_role", d⟩, [Msg.nextExpRole], [], []⟩
      else ⟨⟨p, "edu_degree", d⟩, [Msg.askEduDegreeB], [], []⟩ := rfl

theorem ptm_edu_more (env : Env) (p : String) (d : Data) (t : String) :
    process_text_message env (some ⟨p, "edu_more", d⟩) t =
      if is_yes (pyStrip t) then ⟨⟨p, "edu_degree", d⟩, [Msg.nextEduDegree], [], []⟩
      else ⟨⟨p, "certs", d⟩, [Msg.askCertsB], [], []⟩ := rfl

theorem ptm_certs_more (env : Env) (d : Data) (t : String) :
    process_text_message env (some ⟨"pro", "certs_more", d⟩) t =
      if is_yes (pyStrip t) ∧ d.certs.length < PRO_MAX_CERTS then
        ⟨⟨"pro", "certs", d⟩, [Msg.nextCert], [], []⟩
      else ⟨⟨"pro", "skills", d⟩, [Msg.askSkillsB], [], []⟩ := rfl

theorem ptm_waiting (env : Env) (d : Data) (t : String) :
    process_text_message env (some ⟨"pro", "waiting_payment", d⟩) t =
      if env.enableTestPayments = true ∧
          (pyLower (pyStrip (pyStrip t)) = "test" ∨ pyLower (pyStrip (pyStrip t)) = "aprobar" ∨
            pyLower (pyStrip (pyStrip t)) = "approve") then
        ⟨default_conv, [Msg.testApproved, Msg.anotherCV], [(mk_pro_cv d, true)], []⟩
      else ⟨⟨"pro", "waiting_payment", d⟩, [Msg.waitingNotice], [], []⟩ := rfl

/-- Shared helper: with test payments disabled, a waiting_payment text only
re-sends the waiting notice. -/
theorem ptm_waiting_no_test (env : Env) (d : Data) (t : String)
    (h : env.enableTestPayments = false) :
    process_text_message env (some ⟨"pro", "waiting_payment", d⟩) t =
      ⟨⟨"pro", "waiting_payment", d⟩, [Msg.waitingNotice], [], []⟩ := by
  rw [ptm_waiting, if_neg]
  rintro ⟨ht, -⟩
  rw [h] at ht
  cases ht

/-- C3: for a Basic (free) session at the languages step, the same turn
stores the languages answer, builds and sends exactly one PDF with the
free layout, sends the upsell message, resets the stored session to
choose_plan with default data, and creates no payment row. -/
theorem C3_basic_synchronous_delivery (env : Env) (d : Data) (t : String) :
    process_text_message env (some ⟨"free", "languages", d⟩) t =
      ⟨default_conv, [Msg.freeUpsell],
        [(mk_free_cv {d with languages :=
            (if is_skip (pyStrip t) then []
             else (as_list_from_commas (pyStrip t)).take FREE_MAX_LANGS)}, false)],
        []⟩ := rfl

/-- C2: with test payments disabled, a pro session waiting for payment
never produces a document from an inbound text (only the waiting notice,
state unchanged); the webhook builds and sends a document exactly when the
fetched payment is approved, carries a non-empty external reference, and
that reference resolves to a latest payment row and a stored session; the
delivered document is the pro rendering of the stored data and the session
resets. -/
theorem C2_premium_async_delivery :
    (∀ (env : Env) (d : Data) (t : String), env.enableTestPayments = false →
      process_text_message env (some ⟨"pro", "waiting_payment", d⟩) t =
        ⟨⟨"pro", "waiting_payment", d⟩, [Msg.waitingNotice], [], []⟩) ∧
    (∀ e : MpEvent, (mp_webhook e).pdfs ≠ [] ↔
      (e.paymentId.isSome ∧
        (∃ ref, e.payResult = some ("approved", ref) ∧ pyStrip ref ≠ "") ∧
        e.latest.isSome ∧ e.conv.isSome)) ∧
    (∀ (pid ref pref : String) (c : Conv),
      mp_webhook ⟨some pid, some ("approved", ref), some pref, some c⟩ =
        if pyStrip ref = "" then ⟨[], none, some c⟩
        else ⟨[(mk_pro_cv c.data, true)], some (pref, "approved"), some default_conv⟩) := by
  refine ⟨ptm_waiting_no_test, ?_, ?_⟩
  · intro e
    obtain ⟨pid, pres, lat, cv⟩ := e
    rcases pid with _ | pid
    · simp [mp_webhook]
    rcases pres with _ | ⟨st, ref⟩
    · simp [mp_webhook]
    by_cases href : pyStrip ref = ""
    · simp [mp_webhook, href]
    rcases lat with _ | pref
    · simp [mp_webhook, href]
    by_cases hst : st = "approved"
    · subst hst
      rcases cv with _ | c
      · simp [mp_webhook, href]
      · simp [mp_webhook, href]
    · simp [mp_webhook, href, hst]
  · intro pid ref pref c
    by_cases href : pyStrip ref = ""
    · simp [mp_webhook, href]
    · simp [mp_webhook, href]

/-- C2 witness: concrete instances of both directions. -/
theorem C2_premium_async_delivery_witness :
    (process_text_message ⟨false, none⟩ (some ⟨"pro", "waiting_payment", default_data⟩) "test" =
      ⟨⟨"pro", "waiting_payment", default_data⟩, [Msg.waitingNotice], [], []⟩) ∧
    (mp_webhook ⟨some "77", some ("approved", "wa:5"), some "pref-1",
        some ⟨"pro", "waiting_payment", default_data⟩⟩).pdfs ≠ [] :=
  ⟨C2_premium_async_delivery.1 ⟨false, none⟩ default_data "test" rfl,
   (C2_premium_async_delivery.2.1 _).mpr (by refine ⟨rfl, ⟨"wa:5", rfl, ?_⟩, rfl, rfl⟩; decide)⟩

/-- C4 counterexample: at the exp_more add-another prompt, the unmatched
input qwerty does not re-prompt with the step unchanged; the engine
advances the step to edu_degree. -/
theorem C4_counterexample :
    (process_text_message ⟨false, none⟩ (some ⟨"pro", "exp_more", default_data⟩)
        "qwerty").conv.step = "edu_degree" ∧ Msg.askEduDegreeB ∈
      (process_text_message ⟨false, none⟩ (some ⟨"pro", "exp_more", default_data⟩)
        "qwerty").msgs ∧ ("edu_degree" : String) ≠ "exp_more" := by
  refine ⟨rfl, ?_, by decide⟩
  decide

/-- C4 (amended): at choose_plan, photo_wait and waiting_payment an
unmatched inbound text re-prompts and leaves plan, step and fields
unchanged; at the add-another prompts exp_more, edu_more and certs_more an
input outside the yes vocabulary is treated as a no: the fields stay
unchanged but the flow advances to the next section. -/
theorem C4_unmatched_input :
    (∀ (env : Env) (p : String) (d : Data) (t : String),
      pyLower (pyStrip t) ∉ (["gratis", "free", "pro", "premium"] : List String) →
      process_text_message env (some ⟨p, "choose_plan", d⟩) t =
        ⟨⟨p, "choose_plan", d⟩, [Msg.choosePrompt], [], []⟩) ∧
    (∀ (env : Env) (d : Data) (t : String), is_skip (pyStrip t) = false →
      process_text_message env (some ⟨"pro", "photo_wait", d⟩) t =
        ⟨⟨"pro", "photo_wait", d⟩, [Msg.photoWaitAgain], [], []⟩) ∧
    (∀ (env : Env) (d : Data) (t : String), env.enableTestPayments = false →
      process_text_message env (some ⟨"pro", "waiting_payment", d⟩) t =
        ⟨⟨"pro", "waiting_payment", d⟩, [Msg.waitingNotice], [], []⟩) ∧
    (∀ (env : Env) (p : String) (d : Data) (t : String), is_yes (pyStrip t) = false →
      process_text_message env (some ⟨p, "exp_more", d⟩) t =
        ⟨⟨p, "edu_degree", d⟩, [Msg.askEduDegreeB], [], []⟩) ∧
    (∀ (env : Env) (p : String) (d : Data) (t : String), is_yes (pyStrip t) = false →
      process_text_message env (some ⟨p, "edu_more", d⟩) t =
        ⟨⟨p, "certs", d⟩, [Msg.askCertsB], [], []⟩) ∧
    (∀ (env : Env) (d : Data) (t : String), is_yes (pyStrip t) = false →
      process_text_message env (some ⟨"pro", "certs_more", d⟩) t =
        ⟨⟨"pro", "skills", d⟩, [Msg.askSkillsB], [], []⟩) := by
  refine ⟨?_, ?_, ptm_waiting_no_test, ?_, ?_, ?_⟩
  · intro env p d t h
    have hA : ¬(pyLower (pyStrip t) = "gratis" ∨ pyLower (pyStrip t) = "free") := by
      rintro (hx | hx) <;> exact h (by rw [hx]; decide)
    have hB : ¬(pyLower (pyStrip t) = "pro" ∨ pyLower (pyStrip t) = "premium") := by
      rintro (hx | hx) <;> exact h (by rw [hx]; decide)
    rw [ptm_choose_plan, if_neg hA, if_neg hB]
  · intro env d t h
    rw [ptm_photo_wait, if_neg]
    rw [h]
    exact Bool.false_ne_true
  · intro env p d t h
    rw [ptm_exp_more, if_neg]
    rw [h]
    exact Bool.false_ne_true
  · intro env p d t h
    rw [ptm_edu_more, if_neg]
    rw [h]
    exact Bool.false_ne_true
  · intro env d t h
    rw [ptm_certs_more, if_neg]
    rintro ⟨hy, -⟩
    rw [h] at hy
    cases hy

/-- C4 amended witness: concrete instances of the six parts. -/
theorem C4_unmatched_input_witness :
    process_text_message ⟨false, none⟩ (some ⟨"none", "choose_plan", default_data⟩) "qwerty" =
      ⟨⟨"none", "choose_plan", default_data⟩, [Msg.choosePrompt], [], []⟩ :=
  C4_unmatched_input.1 ⟨false, none⟩ "none" default_data "qwerty" (by decide)

/-- The split of parse_bullets is the same as a direct split on semicolons
or newlines. -/
theorem splitOnPred_nlToSemi (l : List Char) :
    splitOnPred (fun c => c == ';') (l.map nlToSemi) =
      splitOnPred (fun c => c == ';' || c == '\n') l := by
  induction l with
  | nil => rfl
  | cons x xs ih =>
    simp only [List.map_cons, splitOnPred, ih]
    by_cases hx : x = '\n'
    · subst hx
      simp [nlToSemi]
    · by_cases hx2 : x = ';'
      · subst hx2
        simp [nlToSemi]
      · have h1 : nlToSemi x = x := by simp [nlToSemi, hx]
        have h2 : (x == ';' || x == '\n') = (x == ';') := by
          have hf : (x == '\n') = false := by simp [hx]
          rw [hf, Bool.or_false]
        rw [h1]
        simp only [h2]

/-- C5: the bullets answer at exp_bullets is parsed as the ordered list of
trimmed non-empty segments split on semicolons or newlines; an empty parse
re-prompts without any state change; otherwise the pending experience is
appended with the parsed bullets, rewritten and truncated to 6 under pro
and truncated to 4 otherwise. -/
theorem C5_exp_bullets :
    (∀ s : String, parse_bullets s =
      ((splitOnPred (fun c => c == ';' || c == '\n') s.data).map
        (fun l => String.mk (trimChars l))).filter (fun b => b != "")) ∧
    (∀ (env : Env) (p : String) (d : Data) (t : String), parse_bullets (pyStrip t) = [] →
      process_text_message env (some ⟨p, "exp_bullets", d⟩) t =
        ⟨⟨p, "exp_bullets", d⟩, [Msg.bulletsAgain], [], []⟩) ∧
    (∀ (env : Env) (p : String) (d : Data) (t : String), parse_bullets (pyStrip t) ≠ [] →
      (process_text_message env (some ⟨p, "exp_bullets", d⟩) t).conv =
        (let bl := if p = "pro" then (rewrite_bullets_pro (parse_bullets (pyStrip t))).take 6
                   else (parse_bullets (pyStrip t)).take 4
         let exps := d.experiences ++ [{d.cur_exp with bullets := bl}]
         ⟨p, if exps.length < maxExps p ∧ p = "pro" then "exp_more" else "edu_degree",
          {d with experiences := exps, cur_exp := {}}⟩)) := by
  refine ⟨?_, ?_, ?_⟩
  · intro s
    simp only [parse_bullets, splitOnPred_nlToSemi]
  · intro env p d t h
    rw [ptm_exp_bullets]
    simp only [h]
    exact if_pos trivial
  · intro env p d t h
    rw [ptm_exp_bullets]
    dsimp only
    rw [if_neg h]
    split_ifs <;> rfl

/-- C5 witness: a concrete pro parse with rewrite and truncation. -/
theorem C5_exp_bullets_witness :
    (process_text_message ⟨false, none⟩ (some ⟨"pro", "exp_bullets", default_data⟩)
        "caja; ventas").conv =
      ⟨"pro", "exp_more",
        {default_data with
          experiences := [{default_data.cur_exp with bullets := ["Caja.", "Ventas."]}],
          cur_exp := {}}⟩ := by
  have h := C5_exp_bullets.2.2 ⟨false, none⟩ "pro" default_data "caja; ventas" (by decide)
  rw [h]
  decide

/-- C1 witness: a concrete run establishing the caps at a concrete
stored record. -/
theorem C1_list_caps_witness : capsOK ⟨"none", "choose_plan", default_data⟩ :=
  C1_list_caps ⟨false, none⟩ ["hola"] ⟨"none", "choose_plan", default_data⟩ rfl

/-- C7: bullet parsing treats semicolons and newlines as the same
separator, on the concrete examples of the spec and for every input in
which every semicolon is replaced by a newline. -/
theorem C7_separator_equivalence :
    parse_bullets "A; B; C" = ["A", "B", "C"] ∧
    parse_bullets "A\nB\nC" = ["A", "B", "C"] ∧
    (∀ s : String, parse_bullets (String.mk (s.data.map semiToNl)) = parse_bullets s) := by
  refine ⟨by decide, by decide, ?_⟩
  intro s
  have hcomp : ∀ c, nlToSemi (semiToNl c) = nlToSemi c := by
    intro c
    by_cases hc : c = ';'
    · subst hc; decide
    · by_cases hn : c = '\n'
      · subst hn; decide
      · simp [semiToNl, nlToSemi, hc, hn]
  have hm : (String.mk (s.data.map semiToNl)).data.map nlToSemi = s.data.map nlToSemi := by
    show (s.data.map semiToNl).map nlToSemi = s.data.map nlToSemi
    rw [List.map_map]
    exact List.map_congr_left (fun a _ => hcomp a)
  simp only [parse_bullets, hm]

/-- C9: the yes vocabulary and the skip vocabulary are disjoint — an input
classified as yes is never classified as skip — and the word no is a skip
word, not an affirmative. -/
theorem C9_yes_skip_disjoint :
    (∀ s : String, is_yes s = true → is_skip s = false) ∧
    is_yes "no" = false ∧ is_skip "no" = true := by
  refine ⟨?_, by decide, by decide⟩
  intro s h
  have hm : pyLower (pyStrip s) ∈ yes_words := of_decide_eq_true h
  simp only [yes_words, List.mem_cons, List.not_mem_nil, or_false] at hm
  rcases hm with h1 | h1 | h1 | h1 | h1 | h1 | h1 | h1 | h1 <;>
    · simp only [is_skip, h1]
      decide

/-- C9 witness: the theorem applied at the concrete affirmative si. -/
theorem C9_yes_skip_disjoint_witness : is_skip "si" = false :=
  C9_yes_skip_disjoint.1 "si" (by decide)

/-- C10: at the required-field steps name, city, contact, title and
profile_a every inbound text — skip words included — is stored as typed
(after the cleaning every input undergoes) and the flow advances one step;
no skip recognition applies at these steps. -/
theorem C10_required_fields_verbatim (env : Env) (p : String) (d : Data) (t : String)
    (h : pyStrip t = t) :
    ((process_text_message env (some ⟨p, "name", d⟩) t).conv =
      ⟨p, "dni", {d with name := t}⟩) ∧
    ((process_text_message env (some ⟨p, "city", d⟩) t).conv =
      ⟨p, "contact", {d with city := t}⟩) ∧
    ((process_text_message env (some ⟨p, "contact", d⟩) t).conv =
      ⟨p, if p = "pro" then "linkedin" else "title", {d with contact := t}⟩) ∧
    ((process_text_message env (some ⟨p, "title", d⟩) t).conv =
      ⟨p, "profile_a", {d with title := t}⟩) ∧
    (p = "pro" → (process_text_message env (some ⟨p, "profile_a", d⟩) t).conv =
      ⟨p, "strengths", {d with profile_a := t}⟩) ∧
    (p ≠ "pro" → (process_text_message env (some ⟨p, "profile_a", d⟩) t).conv =
      (let d1 : Data := {d with profile_a := t}
       ⟨p, "exp_role", {d1 with profile := profile_free d1, cur_exp := {}}⟩)) := by
  refine ⟨?_, ?_, ?_, ?_, ?_, ?_⟩
  · simp only [ptm_name, h]
  · simp only [ptm_city, h]
  · simp only [ptm_contact, h]
  · simp only [ptm_title, h]
  · intro hp
    subst hp
    simp only [ptm_profile_a, h, String.reduceEq, reduceIte, if_true]
  · intro hp
    simp only [ptm_profile_a, h, hp, reduceIte, if_false]

/-- C10 witness: the skip word no is stored as the name and the flow
advances to the dni step. -/
theorem C10_required_fields_verbatim_witness :
    (process_text_message ⟨false, none⟩ (some ⟨"free", "name", default_data⟩) "no").conv =
      ⟨"free", "dni", {default_data with name := "no"}⟩ :=
  (C10_required_fields_verbatim ⟨false, none⟩ "free" default_data "no" (by decide)).1

/-- Two-step list induction used for the column distribution lemmas. -/
theorem twoStepInd {P : List String → Prop} (h0 : P []) (h1 : ∀ a, P [a])
    (h2 : ∀ a b l, P l → P (a :: b :: l)) : ∀ l, P l
  | [] => h0
  | [a] => h1 a
  | a :: b :: l => h2 a b l (twoStepInd h0 h1 h2 l)

/-- Column sizes of the round-robin distribution. -/
theorem split2_length : ∀ l : List String,
    (split2 l).1.length = (l.length + 1) / 2 ∧ (split2 l).2.length = l.length / 2 := by
  refine twoStepInd ⟨rfl, rfl⟩ (fun a => by constructor <;> simp [split2]) ?_
  intro a b l ih
  obtain ⟨ih1, ih2⟩ := ih
  simp only [split2, List.length_cons]
  constructor
  · omega
  · omega

/-- Reading the padded rows of the two-column distribution row-major gives
back the input, plus one empty cell when the length is odd. -/
theorem padZip_split2_join : ∀ l : List String,
    (padZip (split2 l).1 (split2 l).2).flatten =
      l ++ (if l.length % 2 = 0 then [] else [""]) := by
  refine twoStepInd (by simp [split2, padZip]) (fun a => by simp [split2, padZip]) ?_
  intro a b l ih
  by_cases hl : l.length % 2 = 0
  · have h2 : (a :: b :: l).length % 2 = 0 := by
      simp only [List.length_cons]
      omega
    simp only [split2, padZip, List.flatten_cons, ih, if_pos hl, if_pos h2,
      List.cons_append, List.nil_append, List.append_nil]
  · have h2 : ¬((a :: b :: l).length % 2 = 0) := by
      simp only [List.length_cons]
      omega
    simp only [split2, padZip, List.flatten_cons, ih, if_neg hl, if_neg h2,
      List.cons_append, List.nil_append]

/-- Trimmed non-empty items pass the entry filter of bullets_columns
unchanged. -/
theorem strip_filter_id (items : List String)
    (h : ∀ i ∈ items, pyStrip i = i ∧ i ≠ "") :
    (items.map pyStrip).filter (fun i => i != "") = items := by
  induction items with
  | nil => rfl
  | cons a l ih =>
    obtain ⟨ha1, ha2⟩ := h a (List.mem_cons_self a l)
    have hpa : (a != "") = true := by
      simpa [bne_iff_ne] using ha2
    simp only [List.map_cons, ha1, List.filter_cons, hpa, if_true]
    rw [ih (fun i hi => h i (List.mem_cons_of_mem a hi))]

/-- C6: for trimmed non-empty skill items, column 0 receives the ceiling
and column 1 the floor of half the item count, and reading the produced
rows left to right, top to bottom yields the items in order with one empty
cell padding an odd tail. -/
theorem C6_skills_columns (items : List String)
    (h : ∀ i ∈ items, pyStrip i = i ∧ i ≠ "") :
    (split2 items).1.length = (items.length + 1) / 2 ∧
    (split2 items).2.length = items.length / 2 ∧
    (bullets_columns2 items).flatten =
      items ++ (if items.length % 2 = 0 then [] else [""]) := by
  have hid := strip_filter_id items h
  refine ⟨(split2_length items).1, (split2_length items).2, ?_⟩
  simp only [bullets_columns2, hid]
  exact padZip_split2_join items

/-- C6 witness: three one-word skills distribute as two then one, read
back in order with one padding cell. -/
theorem C6_skills_columns_witness :
    (split2 ["a", "b", "c"]).1.length = 2 ∧ (split2 ["a", "b", "c"]).2.length = 1 ∧
    (bullets_columns2 ["a", "b", "c"]).flatten = ["a", "b", "c", ""] := by
  have h := C6_skills_columns ["a", "b", "c"] (by decide)
  exact ⟨h.1, h.2.1, h.2.2⟩

/-! ## Escaping of the composed document (claim C8) -/

theorem strData_append (a b : String) : (a ++ b).data = a.data ++ b.data := by
  cases a; cases b; rfl

theorem safeAll_nil : safeAll [] := by
  intro s hs
  cases hs

theorem safeAll_append {a b : List String} (ha : safeAll a) (hb : safeAll b) :
    safeAll (a ++ b) := by
  intro s hs
  rcases List.mem_append.mp hs with h | h
  · exact ha s h
  · exact hb s h

theorem safeAll_cons {x : String} {l : List String} (hx : Safe x) (hl : safeAll l) :
    safeAll (x :: l) := by
  intro s hs
  rcases List.mem_cons.mp hs with rfl | h
  · exact hx
  · exact hl s h

theorem safeAll_ite {c : Prop} [Decidable c] {l : List String} (h : safeAll l) :
    safeAll (if c then l else []) := by
  split
  · exact h
  · exact safeAll_nil

theorem safeAll_flatMap {α : Type} {f : α → List String} {l : List α}
    (h : ∀ x, safeAll (f x)) : safeAll (l.flatMap f) := by
  intro s hs
  rcases List.mem_flatMap.mp hs with ⟨x, -, hsx⟩
  exact h x s hsx

theorem safeAll_map {α : Type} {f : α → String} {l : List α}
    (h : ∀ x, Safe (f x)) : safeAll (l.map f) := by
  intro s hs
  rcases List.mem_map.mp hs with ⟨x, -, rfl⟩
  exact h x

/-- The escaping helper never outputs a raw angle bracket. -/
theorem safe_html_msg (s : String) : Safe (html_msg s) := by
  intro c hc
  have hc2 : c ∈ s.data.flatMap escapeChar := hc
  rcases List.mem_flatMap.mp hc2 with ⟨x, -, hcx⟩
  have hamp : ∀ c2 ∈ "&amp;".data, c2 ≠ '<' ∧ c2 ≠ '>' := by decide
  have hlt : ∀ c2 ∈ "&lt;".data, c2 ≠ '<' ∧ c2 ≠ '>' := by decide
  have hgt : ∀ c2 ∈ "&gt;".data, c2 ≠ '<' ∧ c2 ≠ '>' := by decide
  simp only [escapeChar] at hcx
  split_ifs at hcx with h1 h2 h3
  · exact hamp c hcx
  · exact hlt c hcx
  · exact hgt c hcx
  · rcases List.mem_singleton.mp hcx with rfl
    exact ⟨h2, h3⟩

theorem safe_append {a b : String} (ha : Safe a) (hb : Safe b) : Safe (a ++ b) := by
  intro c hc
  rw [strData_append] at hc
  rcases List.mem_append.mp hc with h | h
  · exact ha c h
  · exact hb c h

theorem safe_bullet (s : String) : Safe ("• " ++ html_msg s) :=
  safe_append (by decide) (safe_html_msg s)

theorem safe_cell (a : String) : Safe (if a ≠ "" then "• " ++ html_msg a else "") := by
  split
  · exact safe_bullet a
  · decide

set_option maxHeartbeats 1000000 in
/-- C8: every markup string of the composed document story is safe — every
user-supplied value passes through html_msg before insertion, so no raw
angle bracket, and hence no formatting tag, ever reaches the document
markup. -/
theorem C8_all_markup_escaped (cv : CV) (pro : Bool) :
    ∀ s ∈ story_texts cv pro, Safe s := by
  have hdp : Safe "DATOS PERSONALES" := by decide
  have hpf : Safe "PERFIL" := by decide
  have hex : Safe "EXPERIENCIA" := by decide
  have hed : Safe "EDUCACIÓN" := by decide
  have hcc : Safe "CURSOS / CERTIFICACIONES" := by decide
  have hhb : Safe "HABILIDADES" := by decide
  have hio : Safe "IDIOMAS" := by decide
  show safeAll (story_texts cv pro)
  dsimp only [story_texts]
  repeat'
    first
      | exact safeAll_nil
      | exact safe_html_msg _
      | exact safe_bullet _
      | exact safe_cell _
      | exact hdp
      | exact hpf
      | exact hex
      | exact hed
      | exact hcc
      | exact hhb
      | exact hio
      | apply safeAll_cons
      | apply safeAll_ite
      | apply safeAll_flatMap
      | apply safeAll_map
      | apply safeAll_append
      | intro x

/-- C8 witness: a name holding a literal tag reaches the story only in its
escaped form, which is safe. -/
theorem C8_all_markup_escaped_witness : Safe "&lt;b&gt;" :=
  C8_all_markup_escaped ({ name := "<b>" } : CV) false "&lt;b&gt;" (by decide)

end CVBot
